import Mathlib

/-!
A shallow embedding of the CargoConnect shipment-tracking backend
(`main.py`, `schemas.py`) and proofs about its behaviour.

Modelling conventions:
* Machine time is passed explicitly: every request takes the current clock
  value as a parameter (`Time` for creation, a plain `Nat` epoch second for
  updates).  The several `datetime.now(timezone.utc)` calls inside one
  request body are modelled as a single instant.
* The MongoDB collection `shipment` is a `List Shipment` held in a `DB`
  state; document `_id`s (Mongo ObjectIds) are modelled as `Nat`s handed
  out by a counter `nextOid`.  `find_one` is `List.find?`; `update_one`
  replaces the first matching document.
* Python float fields (`weight`, `amount`) are modelled as `Int`: the only
  property the code checks is their sign (`ge=0`).
* Fallible endpoints return `Except ApiError`; an uncaught Python
  exception surfacing as an HTTP 500 is `ApiError.http 500 _`, a pydantic
  request-validation failure is `ApiError.validation`, and an uncaught
  `smtplib` exception is `ApiError.transport`.
-/

namespace CargoConnect

/-- The fixed status enumeration `StatusLiteral` of `schemas.py`. -/
inductive StatusLit where
  | orderReceived
  | packagePickup
  | sortingCenter
  | inTransit
  | customsClearance
  | outForDelivery
  | delivered
deriving DecidableEq

/-- The wire string of each status literal. -/
def StatusLit.text : StatusLit → String
  | .orderReceived => "Order Received"
  | .packagePickup => "Package Pickup"
  | .sortingCenter => "Sorting Center"
  | .inTransit => "In Transit"
  | .customsClearance => "Customs Clearance"
  | .outForDelivery => "Out for Delivery"
  | .delivered => "Delivered"

/-- `Location` of `schemas.py`; the float coordinates are modelled as `Int`. -/
structure Location where
  lat : Option Int
  lng : Option Int
  city : Option String
deriving DecidableEq

/-- One element of a shipment's `timeline` list: the dict
`{"status": ..., "timestamp": ...}` built in `create_shipment` and
`update_shipment` (the ISO timestamp string is modelled by the epoch
second it prints). -/
structure TimelineEntry where
  status : StatusLit
  timestamp : Nat
deriving DecidableEq

/-- The `Shipment` document of `schemas.py`, together with its Mongo `_id`
(modelled as the `Nat` field `oid`). -/
structure Shipment where
  oid : Nat
  tracking_code : String
  sender_name : String
  receiver_name : String
  receiver_email : String
  receiver_phone : Option String
  address : String
  country : String
  weight : Int
  description : Option String
  amount : Int
  origin : String
  destination : String
  status : StatusLit
  timeline : List TimelineEntry
  location : Option Location
  last_update : Option Nat
  proof_of_delivery_url : Option String
deriving DecidableEq

/-- The persistent state: the `shipment` collection plus the ObjectId
counter used to mint fresh `_id`s. -/
structure DB where
  coll : List Shipment
  nextOid : Nat
deriving DecidableEq

/-- Well-formedness the Mongo layer guarantees: `_id`s are pairwise
distinct, and every stored `_id` is below the freshness counter. -/
def DB.Wf (db : DB) : Prop :=
  (db.coll.map (fun s => s.oid)).Nodup ∧ ∀ s ∈ db.coll, s.oid < db.nextOid

/-- Errors an endpoint can surface to its caller. -/
inductive ApiError where
  /-- `HTTPException(status_code, detail)` raised in an endpoint body. -/
  | http : Nat → String → ApiError
  /-- A pydantic request-body validation failure (FastAPI's 422). -/
  | validation : ApiError
  /-- An uncaught `smtplib` exception escaping `send_email`. -/
  | transport : ApiError
deriving DecidableEq

/-! ### Authentication (`login`, lines 98-103 of `main.py`) -/

/-- `verify_password` wraps `pwd_context.verify` against
`ADMIN_HASH = hash(ADMIN_PASSWORD)`: bcrypt verification is modelled by
its specification, acceptance exactly when the submitted plaintext equals
the hashed plaintext. -/
def verify_password (plain_password stored_password : String) : Bool :=
  plain_password == stored_password

/-- The JWT minted by `create_access_token`, modelled by its decoded
claims (subject and expiry instant). -/
structure AccessToken where
  sub : String
  exp : Nat
deriving DecidableEq

/-- `ACCESS_TOKEN_EXPIRE_MINUTES = 60 * 12`. -/
def ACCESS_TOKEN_EXPIRE_MINUTES : Nat := 60 * 12

/-- `create_access_token`: expiry is the current instant plus the
configured lifetime (in seconds). -/
def create_access_token (sub : String) (now : Nat) : AccessToken :=
  { sub := sub, exp := now + ACCESS_TOKEN_EXPIRE_MINUTES * 60 }

/-- The `/auth/login` endpoint: compares the submitted username with
`ADMIN_EMAIL` and the submitted password against the stored hash; on any
mismatch it raises `HTTPException(401, "Invalid credentials")`. -/
def login (adminEmail adminPassword : String) (now : Nat)
    (username password : String) : Except ApiError AccessToken :=
  if username != adminEmail || !(verify_password password adminPassword) then
    .error (.http 401 "Invalid credentials")
  else
    .ok (create_access_token adminEmail now)

/-! ### Tracking-code generation (`generate_tracking_code`, lines 113-117) -/

/-- The clock as the endpoint observes it: the civil UTC date fields used
by `strftime('%Y%m%d')` and the epoch second used by `timestamp()`. -/
structure Time where
  year : Nat
  month : Nat
  day : Nat
  epoch : Nat
deriving DecidableEq

/-- A real `datetime` value: its civil fields lie in `datetime`'s ranges. -/
def Time.Valid (t : Time) : Prop :=
  1 ≤ t.year ∧ t.year ≤ 9999 ∧ 1 ≤ t.month ∧ t.month ≤ 12 ∧
    1 ≤ t.day ∧ t.day ≤ 31

/-- Decimal digit list of a natural number, most significant first: the
embedding of Python's `str(...)` on a non-negative `int`. -/
def natDigits (n : Nat) : List Char :=
  if h : n < 10 then
    [Char.ofNat (48 + n)]
  else
    natDigits (n / 10) ++ [Char.ofNat (48 + n % 10)]
decreasing_by
  exact Nat.div_lt_self (by omega) (by omega)

/-- Left-pad a digit list with `'0'` to width `w`, as `strftime`'s
zero-padded numeric directives do. -/
def zpad (w : Nat) (cs : List Char) : List Char :=
  List.replicate (w - cs.length) '0' ++ cs

/-- Python's slice `s[-k:]`: the last `k` characters (the whole string
when it is shorter). -/
def lastChars (k : Nat) (cs : List Char) : List Char :=
  cs.drop (cs.length - k)

/-- `now.strftime('%Y%m%d')`. -/
def strftimeYmd (t : Time) : String :=
  ⟨zpad 4 (natDigits t.year) ++ zpad 2 (natDigits t.month) ++
    zpad 2 (natDigits t.day)⟩

/-- `generate_tracking_code`: `CC-{date}-{suffix}` with
`suffix = str(int(now.timestamp()))[-4:]`.  It takes only the clock — no
data-store argument. -/
def generate_tracking_code (t : Time) : String :=
  "CC-" ++ strftimeYmd t ++ "-" ++ String.mk (lastChars 4 (natDigits t.epoch))

/-! ### Request schemas and pydantic validation (`schemas.py`) -/

/-- `ShipmentCreate` of `schemas.py` (the request body, before pydantic
accepts or rejects it). -/
structure ShipmentCreate where
  sender_name : String
  receiver_name : String
  receiver_email : String
  receiver_phone : Option String
  address : String
  country : String
  weight : Int
  description : Option String
  amount : Int
  origin : String
  destination : String
deriving DecidableEq

/-- Split a character list at every occurrence of `sep`. -/
def splitChar (sep : Char) : List Char → List (List Char)
  | [] => [[]]
  | c :: cs =>
    if c == sep then
      [] :: splitChar sep cs
    else
      match splitChar sep cs with
      | [] => [[c]]
      | r :: rs => (c :: r) :: rs

/-- Modelled from the spec: the syntactic email check performed by
pydantic's `EmailStr` (the external `email-validator` library, which is
not part of this repository's sources) — a single `@` separating a
non-empty local part from a non-empty domain containing an interior dot. -/
def isValidEmail (s : String) : Bool :=
  match splitChar '@' s.data with
  | [lpart, domain] =>
      !lpart.isEmpty && !domain.isEmpty && domain.contains '.' &&
        domain.head? != some '.' && domain.getLast? != some '.'
  | _ => false

/-- The pydantic constraints of `ShipmentCreate`: `weight` and `amount`
carry `Field(..., ge=0)` and `receiver_email` is an `EmailStr`. -/
def validCreate (r : ShipmentCreate) : Bool :=
  decide (0 ≤ r.weight) && decide (0 ≤ r.amount) && isValidEmail r.receiver_email

/-- `ShipmentUpdate` of `schemas.py`. -/
structure ShipmentUpdate where
  status : Option StatusLit
  location : Option Location
deriving DecidableEq

/-! ### Shipment endpoints (`main.py`) -/

/-- The body returned by `POST /shipments`:
`{"id": str(inserted_id), "tracking_code": tracking_code}`. -/
structure CreateResponse where
  id : Nat
  tracking_code : String
deriving DecidableEq

/-- The `Shipment(...)` document built in `create_shipment` (lines
123-139): freshly minted tracking code, status `"Order Received"`, a
one-entry timeline stamped now, `last_update` now. -/
def seedShipment (t : Time) (payload : ShipmentCreate) (oid : Nat) : Shipment :=
  { oid := oid
    tracking_code := generate_tracking_code t
    status := .orderReceived
    origin := payload.origin
    destination := payload.destination
    sender_name := payload.sender_name
    receiver_name := payload.receiver_name
    receiver_email := payload.receiver_email
    receiver_phone := payload.receiver_phone
    address := payload.address
    country := payload.country
    weight := payload.weight
    description := payload.description
    amount := payload.amount
    timeline := [{ status := .orderReceived, timestamp := t.epoch }]
    location := none
    last_update := some t.epoch
    proof_of_delivery_url := none }

/-- `create_shipment` (lines 120-142): after pydantic accepts the payload
it builds the seed document, inserts it (`insert_one`, which assigns the
fresh `_id`), and returns the new id with the generated code.  A rejected
payload surfaces as a 422 validation error. -/
def create_shipment (t : Time) (payload : ShipmentCreate) (db : DB) :
    Except ApiError (CreateResponse × DB) :=
  if validCreate payload then
    .ok ({ id := db.nextOid, tracking_code := generate_tracking_code t },
      { coll := db.coll ++ [seedShipment t payload db.nextOid],
        nextOid := db.nextOid + 1 })
  else
    .error .validation

/-- Sort key for `sort("last_update", -1)` (every stored document has a
`last_update`; a missing one orders lowest). -/
def luKey (s : Shipment) : Nat := s.last_update.getD 0

/-- `list_shipments` (lines 145-150):
`find().sort("last_update", -1).limit(200)`. -/
def list_shipments (db : DB) : List Shipment :=
  (db.coll.mergeSort (fun a b => decide (luKey b ≤ luKey a))).take 200

/-- The Mongo filter `{"tracking_code": code}`. -/
def byCode (code : String) : Shipment → Bool :=
  fun d => d.tracking_code == code

/-- The Mongo filter `{"_id": oid}`. -/
def byOid (oid : Nat) : Shipment → Bool :=
  fun d => d.oid == oid

/-- `public_track` (lines 153-159): unauthenticated lookup by tracking
code; `404 "Tracking Number Not Found"` when no document matches,
otherwise the whole stored document. -/
def public_track (code : String) (db : DB) : Except ApiError Shipment :=
  match db.coll.find? (byCode code) with
  | none => .error (.http 404 "Tracking Number Not Found")
  | some doc => .ok doc

/-- Replace the first element satisfying `p` by its image under `f`: the
effect of Mongo's `update_one(filter, {"$set": ...})`. -/
def updateFirst (p : Shipment → Bool) (f : Shipment → Shipment) :
    List Shipment → List Shipment
  | [] => []
  | x :: xs => if p x then f x :: xs else x :: updateFirst p f xs

/-- The `updates` dict of `update_shipment` applied to the fetched
document: a supplied status sets `status` and appends one timeline entry
stamped now; a supplied location overwrites `location` wholesale;
`last_update` is always set to now. -/
def applyShipmentUpdate (now : Nat) (p : ShipmentUpdate) (s : Shipment) :
    Shipment :=
  let s1 :=
    match p.status with
    | some st =>
        { s with status := st,
                 timeline := s.timeline ++
                   [({ status := st, timestamp := now } : TimelineEntry)] }
    | none => s
  let s2 :=
    match p.location with
    | some loc => { s1 with location := some loc }
    | none => s1
  { s2 with last_update := some now }

/-- `update_shipment` (lines 162-182): fetch by tracking code (404
`"Shipment not found"` if absent), `$set` the computed updates on that
document's `_id`, re-fetch by `_id` and return the refreshed document.
(The re-fetch coming back empty would crash the Python handler — an HTTP
500 — and is unreachable on a well-formed store.) -/
def update_shipment (now : Nat) (code : String) (payload : ShipmentUpdate)
    (db : DB) : Except ApiError (Shipment × DB) :=
  match db.coll.find? (byCode code) with
  | none => .error (.http 404 "Shipment not found")
  | some doc =>
    let updated := applyShipmentUpdate now payload doc
    let coll2 := updateFirst (byOid doc.oid) (fun _ => updated) db.coll
    match coll2.find? (byOid doc.oid) with
    | none => .error (.http 500 "Internal Server Error")
    | some newDoc => .ok (newDoc, ({ coll := coll2, nextOid := db.nextOid } : DB))

/-! ### Proof-of-delivery upload (`upload_proof`, lines 185-194) -/

/-- Uploaded file bytes. -/
abbrev FileContent := List Nat

/-- The local `logs/` directory used in place of blob storage: filename
to content, most recent write first. -/
structure BlobStore where
  files : List (String × FileContent)
deriving DecidableEq

/-- Read back a stored file (latest write wins). -/
def BlobStore.read (b : BlobStore) (key : String) : Option FileContent :=
  (b.files.find? (fun e => e.1 == key)).map (fun e => e.2)

/-- The body returned by `POST /shipments/{code}/proof`. -/
structure UploadResponse where
  url : String
deriving DecidableEq

/-- `upload_proof`: writes the content to `logs/{code}-{filename}`,
`$set`s `proof_of_delivery_url` on the document matching the tracking
code (a no-op when none matches — the handler performs no existence
check), and returns the pseudo URL. -/
def upload_proof (code filename : String) (content : FileContent)
    (db : DB) (blob : BlobStore) : UploadResponse × DB × BlobStore :=
  let fname := "logs/" ++ code ++ "-" ++ filename
  let blob2 : BlobStore := { files := (fname, content) :: blob.files }
  let coll2 := updateFirst (byCode code)
      (fun d => { d with proof_of_delivery_url := some ("/" ++ fname) }) db.coll
  ({ url := "/" ++ fname }, { coll := coll2, nextOid := db.nextOid }, blob2)

/-! ### Email notification (`send_email` and `notify_receiver`,
lines 246-275) -/

/-- The SMTP environment configuration read by `send_email`
(`SMTP_HOST`, `SMTP_USER`, `SMTP_PASS`; the port with its default). -/
structure SmtpConfig where
  host : Option String
  port : Nat
  user : Option String
  password : Option String
deriving DecidableEq

/-- What the external SMTP session would do if attempted. -/
inductive SmtpOutcome where
  | delivered
  | failed
deriving DecidableEq

/-- An `smtplib` exception escaping the `with smtplib.SMTP(...)` block. -/
inductive SmtpError where
  | sendFailure
deriving DecidableEq

/-- Python truthiness of an optional environment string: `None` and `""`
are falsy. -/
def pyTruthy (o : Option String) : Bool :=
  match o with
  | none => false
  | some s => !s.isEmpty

/-- `send_email`: returns `False` when host or credentials are unset,
without touching the transport; otherwise it opens the SMTP session, and
any transport failure raises out of the function. -/
def send_email (cfg : SmtpConfig) (outcome : SmtpOutcome)
    (to_email subject body : String) : Except SmtpError Bool :=
  if !(pyTruthy cfg.host && pyTruthy cfg.user && pyTruthy cfg.password) then
    .ok false
  else
    match outcome with
    | .delivered => .ok true
    | .failed => .error .sendFailure

/-- The body returned by `POST /shipments/{code}/notify`. -/
structure NotifyResponse where
  sent : Bool
deriving DecidableEq

/-- `notify_receiver` (lines 267-275): fetch by tracking code (404 if
absent), compose the message, call `send_email` and report its boolean.
An exception from `send_email` propagates to the caller. -/
def notify_receiver (code : String) (cfg : SmtpConfig) (outcome : SmtpOutcome)
    (db : DB) : Except ApiError NotifyResponse :=
  match db.coll.find? (byCode code) with
  | none => .error (.http 404 "Shipment not found")
  | some doc =>
    let subject := "CargoConnect Update: " ++ code ++ " - " ++ doc.status.text
    let body := "Hello " ++ doc.receiver_name ++ ",\n\nYour shipment " ++ code ++
      " status is now: " ++ doc.status.text ++ ".\nTrack here: " ++ code ++
      "\n\nCargoConnect"
    match send_email cfg outcome doc.receiver_email subject body with
    | .error _ => .error .transport
    | .ok ok => .ok { sent := ok }

/-! ### Lemmas about the store primitives -/

theorem updateFirst_of_find?_eq_none {p : Shipment → Bool} {f : Shipment → Shipment}
    (l : List Shipment) (h : l.find? p = none) :
    updateFirst p f l = l := by
  induction l with
  | nil => rfl
  | cons x xs ih =>
    cases hx : p x with
    | true => rw [List.find?_cons_of_pos _ hx] at h; exact absurd h (by simp)
    | false =>
      rw [List.find?_cons_of_neg _ (by simp [hx])] at h
      simp [updateFirst, hx, ih h]

theorem find?_updateFirst_same {p : Shipment → Bool} {f : Shipment → Shipment}
    (hf : ∀ x, p x = true → p (f x) = true) (l : List Shipment) :
    (updateFirst p f l).find? p = (l.find? p).map f := by
  induction l with
  | nil => rfl
  | cons x xs ih =>
    cases hx : p x with
    | true =>
      simp [updateFirst, hx, List.find?_cons_of_pos _ (hf x hx),
        List.find?_cons_of_pos _ hx]
    | false =>
      rw [updateFirst, if_neg (by simp [hx])]
      rw [List.find?_cons_of_neg _ (by simp [hx]),
        List.find?_cons_of_neg _ (by simp [hx])]
      exact ih

theorem mem_updateFirst {p : Shipment → Bool} {u : Shipment} {l : List Shipment}
    {x : Shipment} (hx : x ∈ updateFirst p (fun _ => u) l) : x ∈ l ∨ x = u := by
  induction l with
  | nil => simp [updateFirst] at hx
  | cons y ys ih =>
    cases hy : p y with
    | true =>
      rw [updateFirst, if_pos hy] at hx
      rcases List.mem_cons.mp hx with h | h
      · exact Or.inr h
      · exact Or.inl (List.mem_cons_of_mem _ h)
    | false =>
      rw [updateFirst, if_neg (by simp [hy])] at hx
      rcases List.mem_cons.mp hx with h | h
      · exact Or.inl (h ▸ List.mem_cons_self _ _)
      · rcases ih h with h' | h'
        · exact Or.inl (List.mem_cons_of_mem _ h')
        · exact Or.inr h'

/-! ### Field lemmas for `applyShipmentUpdate` -/

theorem applyShipmentUpdate_oid (now : Nat) (p : ShipmentUpdate) (s : Shipment) :
    (applyShipmentUpdate now p s).oid = s.oid := by
  obtain ⟨ps, pl⟩ := p
  cases ps <;> cases pl <;> rfl

theorem applyShipmentUpdate_tracking_code (now : Nat) (p : ShipmentUpdate)
    (s : Shipment) :
    (applyShipmentUpdate now p s).tracking_code = s.tracking_code := by
  obtain ⟨ps, pl⟩ := p
  cases ps <;> cases pl <;> rfl

theorem applyShipmentUpdate_last_update (now : Nat) (p : ShipmentUpdate)
    (s : Shipment) :
    (applyShipmentUpdate now p s).last_update = some now := by
  obtain ⟨ps, pl⟩ := p
  cases ps <;> cases pl <;> rfl

theorem applyShipmentUpdate_status_some {now : Nat} {p : ShipmentUpdate}
    {s : Shipment} {st : StatusLit} (h : p.status = some st) :
    (applyShipmentUpdate now p s).status = st ∧
      (applyShipmentUpdate now p s).timeline =
        s.timeline ++ [{ status := st, timestamp := now }] := by
  obtain ⟨ps, pl⟩ := p
  cases ps <;> cases pl <;> simp_all [applyShipmentUpdate]

theorem applyShipmentUpdate_status_none {now : Nat} {p : ShipmentUpdate}
    {s : Shipment} (h : p.status = none) :
    (applyShipmentUpdate now p s).status = s.status ∧
      (applyShipmentUpdate now p s).timeline = s.timeline := by
  obtain ⟨ps, pl⟩ := p
  cases ps <;> cases pl <;> simp_all [applyShipmentUpdate]

theorem applyShipmentUpdate_location_some {now : Nat} {p : ShipmentUpdate}
    {s : Shipment} {loc : Location} (h : p.location = some loc) :
    (applyShipmentUpdate now p s).location = some loc := by
  obtain ⟨ps, pl⟩ := p
  cases ps <;> cases pl <;> simp_all [applyShipmentUpdate]

/-! ### The key `update_one` characterisation -/

theorem updateFirst_byOid_spec {code : String} {s u : Shipment}
    (hcode : u.tracking_code = s.tracking_code) (hoid : u.oid = s.oid) :
    ∀ l : List Shipment, (l.map (fun x => x.oid)).Nodup →
      l.find? (byCode code) = some s →
      (updateFirst (byOid s.oid) (fun _ => u) l).find? (byOid s.oid) = some u ∧
        (updateFirst (byOid s.oid) (fun _ => u) l).find? (byCode code) = some u ∧
        (updateFirst (byOid s.oid) (fun _ => u) l).map (fun x => x.oid) =
          l.map (fun x => x.oid) := by
  intro l
  induction l with
  | nil => intro _ h; simp [List.find?] at h
  | cons x xs ih =>
    intro hnd hfind
    rw [List.map_cons, List.nodup_cons] at hnd
    cases hx : byCode code x with
    | true =>
      rw [List.find?_cons_of_pos _ hx] at hfind
      injection hfind with hxs
      subst hxs
      have hpx : byOid x.oid x = true := by simp [byOid]
      have hpu : byOid x.oid u = true := by simp [byOid, hoid]
      have hcu : byCode code u = true := by
        simp only [byCode, beq_iff_eq] at hx ⊢
        rw [hcode, hx]
      refine ⟨?_, ?_, ?_⟩
      · rw [updateFirst, if_pos hpx, List.find?_cons_of_pos _ hpu]
      · rw [updateFirst, if_pos hpx, List.find?_cons_of_pos _ hcu]
      · rw [updateFirst, if_pos hpx, List.map_cons, List.map_cons, hoid]
    | false =>
      rw [List.find?_cons_of_neg _ (by simp [hx])] at hfind
      have hmem : s ∈ xs := List.mem_of_find?_eq_some hfind
      have hne : x.oid ≠ s.oid := by
        intro hcontra
        exact hnd.1 (hcontra ▸ List.mem_map_of_mem (fun y => y.oid) hmem)
      have hpx : byOid s.oid x = false := by
        simp [byOid, hne]
      obtain ⟨ih1, ih2, ih3⟩ := ih hnd.2 hfind
      refine ⟨?_, ?_, ?_⟩
      · rw [updateFirst, if_neg (by simp [hpx]), List.find?_cons_of_neg _ (by simp [hpx]), ih1]
      · rw [updateFirst, if_neg (by simp [hpx]), List.find?_cons_of_neg _ (by simp [hx]), ih2]
      · rw [updateFirst, if_neg (by simp [hpx]), List.map_cons, List.map_cons, ih3]

theorem update_shipment_ok {now : Nat} {code : String} {p : ShipmentUpdate}
    {db : DB} {s : Shipment} (hwf : db.Wf)
    (hfind : db.coll.find? (byCode code) = some s) :
    update_shipment now code p db =
      .ok (applyShipmentUpdate now p s,
        ({ coll := updateFirst (byOid s.oid)
              (fun _ => applyShipmentUpdate now p s) db.coll,
           nextOid := db.nextOid } : DB)) ∧
      DB.Wf { coll := updateFirst (byOid s.oid)
                (fun _ => applyShipmentUpdate now p s) db.coll,
              nextOid := db.nextOid } ∧
      (updateFirst (byOid s.oid) (fun _ => applyShipmentUpdate now p s)
          db.coll).find? (byCode code) = some (applyShipmentUpdate now p s) := by
  obtain ⟨h1, h2, h3⟩ :=
    updateFirst_byOid_spec (applyShipmentUpdate_tracking_code now p s)
      (applyShipmentUpdate_oid now p s) db.coll hwf.1 hfind
  refine ⟨?_, ⟨?_, ?_⟩, h2⟩
  · unfold update_shipment
    rw [hfind]
    dsimp only
    rw [h1]
  · rw [h3]
    exact hwf.1
  · intro x hx
    rcases mem_updateFirst hx with hx' | hx'
    · exact hwf.2 x hx'
    · subst hx'
      rw [applyShipmentUpdate_oid]
      exact hwf.2 s (List.mem_of_find?_eq_some hfind)

/-! ### Sequences of status updates -/

/-- A sequence of `PATCH /shipments/{code}` requests applied in order,
each pairing a request body with the clock value at which it runs. -/
def runUpdates (code : String) :
    List (ShipmentUpdate × Nat) → DB → Except ApiError DB
  | [], db => .ok db
  | (p, t) :: rest, db =>
    match update_shipment t code p db with
    | .error e => .error e
    | .ok (_, db2) => runUpdates code rest db2

/-- The timeline entries a sequence of update bodies appends: one per
body that supplies a status, in request order. -/
def timelineDelta (us : List (ShipmentUpdate × Nat)) : List TimelineEntry :=
  us.filterMap
    (fun u => u.1.status.map (fun st => { status := st, timestamp := u.2 }))

/-- The status field agrees with the status of the last timeline entry. -/
def statusMatchesTimeline (s : Shipment) : Prop :=
  ∃ e, s.timeline.getLast? = some e ∧ e.status = s.status

theorem statusMatchesTimeline_applyShipmentUpdate {now : Nat}
    {p : ShipmentUpdate} {s : Shipment} (h : statusMatchesTimeline s) :
    statusMatchesTimeline (applyShipmentUpdate now p s) := by
  obtain ⟨e, he, hes⟩ := h
  cases hps : p.status with
  | some st =>
    obtain ⟨h1, h2⟩ := @applyShipmentUpdate_status_some now p s st hps
    exact ⟨{ status := st, timestamp := now }, by rw [h2]; simp, by rw [h1]⟩
  | none =>
    obtain ⟨h1, h2⟩ := @applyShipmentUpdate_status_none now p s hps
    exact ⟨e, by rw [h2]; exact he, by rw [h1]; exact hes⟩

theorem runUpdates_spec (code : String) (us : List (ShipmentUpdate × Nat)) :
    ∀ db s, DB.Wf db → db.coll.find? (byCode code) = some s →
      ∃ db2 s2, runUpdates code us db = .ok db2 ∧ DB.Wf db2 ∧
        db2.coll.find? (byCode code) = some s2 ∧
        s2.timeline = s.timeline ++ timelineDelta us ∧
        (statusMatchesTimeline s → statusMatchesTimeline s2) := by
  induction us with
  | nil =>
    intro db s hwf hfind
    exact ⟨db, s, rfl, hwf, hfind, by simp [timelineDelta], fun h => h⟩
  | cons u rest ih =>
    intro db s hwf hfind
    obtain ⟨p, t⟩ := u
    obtain ⟨hok, hwf2, hfind2⟩ := @update_shipment_ok t code p db s hwf hfind
    obtain ⟨db2, s2, hrun, hwf3, hfind3, htl, hinv⟩ :=
      ih _ (applyShipmentUpdate t p s) hwf2 hfind2
    refine ⟨db2, s2, ?_, hwf3, hfind3, ?_, ?_⟩
    · rw [runUpdates, hok]
      exact hrun
    · cases hps : p.status with
      | some st =>
        obtain ⟨_, h2⟩ := @applyShipmentUpdate_status_some t p s st hps
        rw [htl, h2]
        simp [timelineDelta, List.filterMap_cons, hps]
      | none =>
        obtain ⟨_, h2⟩ := @applyShipmentUpdate_status_none t p s hps
        rw [htl, h2]
        simp [timelineDelta, List.filterMap_cons, hps]
    · exact fun h => hinv (statusMatchesTimeline_applyShipmentUpdate h)

/-! ### Lemmas about creation -/

theorem create_shipment_ok {t : Time} {payload : ShipmentCreate} {db : DB}
    (hv : validCreate payload = true) :
    create_shipment t payload db =
      .ok ({ id := db.nextOid, tracking_code := generate_tracking_code t },
        { coll := db.coll ++ [seedShipment t payload db.nextOid],
          nextOid := db.nextOid + 1 }) := by
  unfold create_shipment
  rw [if_pos hv]

theorem create_shipment_wf {t : Time} {payload : ShipmentCreate} {db : DB}
    (hwf : DB.Wf db) :
    DB.Wf { coll := db.coll ++ [seedShipment t payload db.nextOid],
            nextOid := db.nextOid + 1 } := by
  constructor
  · rw [List.map_append, List.nodup_append]
    refine ⟨hwf.1, by simp, ?_⟩
    intro a ha hb
    simp only [List.map_cons, List.map_nil, List.mem_singleton] at hb
    rw [List.mem_map] at ha
    obtain ⟨x, hx, rfl⟩ := ha
    have := hwf.2 x hx
    simp [seedShipment] at hb
    omega
  · intro x hx
    rcases List.mem_append.mp hx with h | h
    · exact Nat.lt_succ_of_lt (hwf.2 x h)
    · rw [List.mem_singleton] at h
      subst h
      simp [seedShipment]

theorem find?_coll_after_create {t : Time} {payload : ShipmentCreate} {db : DB}
    (hfresh : ∀ x ∈ db.coll, x.tracking_code ≠ generate_tracking_code t) :
    (db.coll ++ [seedShipment t payload db.nextOid]).find?
        (byCode (generate_tracking_code t)) =
      some (seedShipment t payload db.nextOid) := by
  rw [List.find?_append]
  have h1 : db.coll.find? (byCode (generate_tracking_code t)) = none := by
    rw [List.find?_eq_none]
    intro x hx
    simp [byCode, hfresh x hx]
  rw [h1]
  simp [byCode, seedShipment]

theorem find?_eq_some_of_nodup_codes {code : String} {s : Shipment} :
    ∀ l : List Shipment, (l.map (fun x => x.tracking_code)).Nodup →
      s ∈ l → s.tracking_code = code → l.find? (byCode code) = some s := by
  intro l
  induction l with
  | nil => intro _ h; simp at h
  | cons x xs ih =>
    intro hnd hmem hcode
    rw [List.map_cons, List.nodup_cons] at hnd
    rcases List.mem_cons.mp hmem with rfl | hmem'
    · rw [List.find?_cons_of_pos _ (by simp [byCode, hcode])]
    · have hx : byCode code x = false := by
        simp only [byCode, beq_eq_false_iff_ne, ne_eq]
        intro hxc
        have hmm : s.tracking_code ∈ xs.map (fun y => y.tracking_code) :=
          List.mem_map_of_mem _ hmem'
        rw [hcode, ← hxc] at hmm
        exact hnd.1 hmm
      rw [List.find?_cons_of_neg _ (by simp [hx])]
      exact ih hnd.2 hmem' hcode

/-- An update list in which every request body supplies a status: status,
optional location, clock value. -/
def statusUpdates (us : List (StatusLit × Option Location × Nat)) :
    List (ShipmentUpdate × Nat) :=
  us.map (fun u => ({ status := some u.1, location := u.2.1 }, u.2.2))

theorem timelineDelta_statusUpdates
    (us : List (StatusLit × Option Location × Nat)) :
    timelineDelta (statusUpdates us) =
      us.map (fun u => { status := u.1, timestamp := u.2.2 }) := by
  induction us with
  | nil => rfl
  | cons u rest ih =>
    simp only [statusUpdates, timelineDelta, List.map_cons,
      List.filterMap_cons] at ih ⊢
    simp only [Option.map_some']
    rw [ih]

/-! ### Concrete sample values used to evaluate the theorems -/

def sampleTime : Time :=
  { year := 2024, month := 1, day := 15, epoch := 1705276800 }

def samplePayload : ShipmentCreate :=
  { sender_name := "Ana"
    receiver_name := "Ben"
    receiver_email := "ben@example.com"
    receiver_phone := none
    address := "1 Dock Road"
    country := "PT"
    weight := 5
    description := none
    amount := 20
    origin := "Lisbon"
    destination := "Porto" }

def sampleShipment : Shipment :=
  { oid := 0
    tracking_code := "CC-20240115-6800"
    sender_name := "Ana"
    receiver_name := "Ben"
    receiver_email := "ben@example.com"
    receiver_phone := none
    address := "1 Dock Road"
    country := "PT"
    weight := 5
    description := none
    amount := 20
    origin := "Lisbon"
    destination := "Porto"
    status := .orderReceived
    timeline := [{ status := .orderReceived, timestamp := 1705276800 }]
    location := none
    last_update := some 1705276800
    proof_of_delivery_url := none }

/-! ### The claims -/

/-- **C1.** A shipment created by `create_shipment` and then subjected to
`N` `update_shipment` calls that each supply a new status has a timeline
of length `N + 1`: the seed entry followed by exactly one entry per
update, in the order the updates were applied — no entry is ever removed
or reordered. -/
theorem C1_timeline_append_only (t : Time) (payload : ShipmentCreate)
    (db : DB) (us : List (StatusLit × Option Location × Nat))
    (hv : validCreate payload = true) (hwf : DB.Wf db)
    (hfresh : ∀ x ∈ db.coll, x.tracking_code ≠ generate_tracking_code t) :
    ∃ resp db1 db2 s,
      create_shipment t payload db = .ok (resp, db1) ∧
      runUpdates resp.tracking_code (statusUpdates us) db1 = .ok db2 ∧
      db2.coll.find? (byCode resp.tracking_code) = some s ∧
      s.timeline =
        { status := .orderReceived, timestamp := t.epoch } ::
          us.map (fun u => { status := u.1, timestamp := u.2.2 }) ∧
      s.timeline.length = us.length + 1 := by
  have hco := @create_shipment_ok t payload db hv
  have hwf1 : DB.Wf { coll := db.coll ++ [seedShipment t payload db.nextOid],
                      nextOid := db.nextOid + 1 } := create_shipment_wf hwf
  have hfind1 := @find?_coll_after_create t payload db hfresh
  obtain ⟨db2, s2, hrun, _, hfind2, htl, _⟩ :=
    runUpdates_spec (generate_tracking_code t) (statusUpdates us)
      { coll := db.coll ++ [seedShipment t payload db.nextOid],
        nextOid := db.nextOid + 1 } _ hwf1 hfind1
  refine ⟨{ id := db.nextOid, tracking_code := generate_tracking_code t },
    _, db2, s2, hco, hrun, hfind2, ?_, ?_⟩
  · rw [htl, timelineDelta_statusUpdates]
    simp [seedShipment]
  · rw [htl, timelineDelta_statusUpdates]
    simp [seedShipment]

/-- Evaluation of C1 on a concrete store, payload and two-update run. -/
theorem C1_witness :
    ∃ resp db1 db2 s,
      create_shipment sampleTime samplePayload { coll := [], nextOid := 0 } =
        .ok (resp, db1) ∧
      runUpdates resp.tracking_code
        (statusUpdates [(.inTransit, none, 1705300000),
          (.delivered, none, 1705330000)]) db1 = .ok db2 ∧
      db2.coll.find? (byCode resp.tracking_code) = some s ∧
      s.timeline =
        { status := .orderReceived, timestamp := sampleTime.epoch } ::
          [(StatusLit.inTransit, (none : Option Location), 1705300000),
            (StatusLit.delivered, (none : Option Location), 1705330000)].map
            (fun u => { status := u.1, timestamp := u.2.2 }) ∧
      s.timeline.length =
        [(StatusLit.inTransit, (none : Option Location), 1705300000),
          (StatusLit.delivered, (none : Option Location), 1705330000)].length + 1 :=
  C1_timeline_append_only sampleTime samplePayload { coll := [], nextOid := 0 }
    [(.inTransit, none, 1705300000), (.delivered, none, 1705330000)]
    (by decide) ⟨List.nodup_nil, by simp⟩ (by simp)

/-- **C10.** For a shipment created by `create_shipment` and mutated by an
arbitrary sequence of `update_shipment` calls, the status field equals
the status recorded in the last entry of its timeline. -/
theorem C10_status_matches_last_timeline_entry (t : Time)
    (payload : ShipmentCreate) (db : DB) (us : List (ShipmentUpdate × Nat))
    (hv : validCreate payload = true) (hwf : DB.Wf db)
    (hfresh : ∀ x ∈ db.coll, x.tracking_code ≠ generate_tracking_code t) :
    ∃ resp db1 db2 s,
      create_shipment t payload db = .ok (resp, db1) ∧
      runUpdates resp.tracking_code us db1 = .ok db2 ∧
      db2.coll.find? (byCode resp.tracking_code) = some s ∧
      ∃ e, s.timeline.getLast? = some e ∧ e.status = s.status := by
  have hco := @create_shipment_ok t payload db hv
  have hwf1 : DB.Wf { coll := db.coll ++ [seedShipment t payload db.nextOid],
                      nextOid := db.nextOid + 1 } := create_shipment_wf hwf
  have hfind1 := @find?_coll_after_create t payload db hfresh
  obtain ⟨db2, s2, hrun, _, hfind2, _, hinv⟩ :=
    runUpdates_spec (generate_tracking_code t) us
      { coll := db.coll ++ [seedShipment t payload db.nextOid],
        nextOid := db.nextOid + 1 } _ hwf1 hfind1
  refine ⟨{ id := db.nextOid, tracking_code := generate_tracking_code t },
    _, db2, s2, hco, hrun, hfind2, ?_⟩
  exact hinv ⟨{ status := .orderReceived, timestamp := t.epoch },
    by simp [seedShipment], by simp [seedShipment]⟩

/-- Evaluation of C10 on a concrete run mixing status-only,
location-only and empty update bodies. -/
theorem C10_witness :
    ∃ resp db1 db2 s,
      create_shipment sampleTime samplePayload { coll := [], nextOid := 0 } =
        .ok (resp, db1) ∧
      runUpdates resp.tracking_code
        [({ status := some .packagePickup, location := none }, 1705280000),
          ({ status := none,
             location := some { lat := some 38, lng := some (-9), city := none } },
            1705290000),
          ({ status := none, location := none }, 1705295000)] db1 = .ok db2 ∧
      db2.coll.find? (byCode resp.tracking_code) = some s ∧
      ∃ e, s.timeline.getLast? = some e ∧ e.status = s.status :=
  C10_status_matches_last_timeline_entry sampleTime samplePayload
    { coll := [], nextOid := 0 }
    [({ status := some .packagePickup, location := none }, 1705280000),
      ({ status := none,
         location := some { lat := some 38, lng := some (-9), city := none } },
        1705290000),
      ({ status := none, location := none }, 1705295000)]
    (by decide) ⟨List.nodup_nil, by simp⟩ (by simp)

/-- **C2.** `update_shipment` fails with NotFound on an unknown tracking
code; otherwise it applies exactly the requested changes to the stored
document: a supplied status is written to the field and appended as one
timeline entry stamped now, a supplied location replaces the location
value wholesale, `last_update` is always refreshed (even when the body is
empty), and the returned record is the updated stored record. -/
theorem C2_update_semantics (now : Nat) (code : String) (p : ShipmentUpdate)
    (db : DB) :
    ((∀ x ∈ db.coll, x.tracking_code ≠ code) →
      update_shipment now code p db = .error (.http 404 "Shipment not found")) ∧
    (∀ s, DB.Wf db → db.coll.find? (byCode code) = some s →
      ∃ db2, update_shipment now code p db =
          .ok (applyShipmentUpdate now p s, db2) ∧
        (∀ st, p.status = some st →
          (applyShipmentUpdate now p s).status = st ∧
            (applyShipmentUpdate now p s).timeline =
              s.timeline ++ [{ status := st, timestamp := now }]) ∧
        (∀ loc, p.location = some loc →
          (applyShipmentUpdate now p s).location = some loc) ∧
        (applyShipmentUpdate now p s).last_update = some now ∧
        db2.coll.find? (byCode code) = some (applyShipmentUpdate now p s)) := by
  constructor
  · intro h
    have hnone : db.coll.find? (byCode code) = none := by
      rw [List.find?_eq_none]
      intro x hx
      simp [byCode, h x hx]
    unfold update_shipment
    rw [hnone]
  · intro s hwf hfind
    obtain ⟨hok, _, hfind2⟩ := @update_shipment_ok now code p db s hwf hfind
    exact ⟨_, hok, fun st hst => applyShipmentUpdate_status_some hst,
      fun loc hloc => applyShipmentUpdate_location_some hloc,
      applyShipmentUpdate_last_update now p s, hfind2⟩

/-- Evaluation of C2: the NotFound branch on an empty store and the
success branch on a one-shipment store. -/
theorem C2_witness :
    update_shipment 9 "missing" { status := none, location := none }
        { coll := [], nextOid := 0 } =
      .error (.http 404 "Shipment not found") ∧
    ∃ db2, update_shipment 1705300000 "CC-20240115-6800"
          { status := some .inTransit, location := none }
          { coll := [sampleShipment], nextOid := 1 } =
        .ok (applyShipmentUpdate 1705300000
          { status := some .inTransit, location := none } sampleShipment, db2) ∧
      (∀ st, ({ status := some .inTransit, location := none } : ShipmentUpdate).status = some st →
        (applyShipmentUpdate 1705300000
            { status := some .inTransit, location := none } sampleShipment).status = st ∧
          (applyShipmentUpdate 1705300000
              { status := some .inTransit, location := none } sampleShipment).timeline =
            sampleShipment.timeline ++ [{ status := st, timestamp := 1705300000 }]) ∧
      (∀ loc, ({ status := some .inTransit, location := none } : ShipmentUpdate).location = some loc →
        (applyShipmentUpdate 1705300000
            { status := some .inTransit, location := none } sampleShipment).location = some loc) ∧
      (applyShipmentUpdate 1705300000
          { status := some .inTransit, location := none } sampleShipment).last_update =
        some 1705300000 ∧
      db2.coll.find? (byCode "CC-20240115-6800") =
        some (applyShipmentUpdate 1705300000
          { status := some .inTransit, location := none } sampleShipment) :=
  ⟨(C2_update_semantics 9 "missing" { status := none, location := none }
      { coll := [], nextOid := 0 }).1 (by simp),
    (C2_update_semantics 1705300000 "CC-20240115-6800"
        { status := some .inTransit, location := none }
        { coll := [sampleShipment], nextOid := 1 }).2 sampleShipment
      ⟨by simp, by simp [sampleShipment]⟩ rfl⟩

/-- **C4.** The public tracking lookup fails with the 404 NotFound error —
and no other error — for every code carried by no stored shipment, and
for a stored shipment it returns the full stored record, location,
timeline and proof-of-delivery reference included, unredacted. -/
theorem C4_public_track_semantics (code : String) (db : DB) :
    ((∀ x ∈ db.coll, x.tracking_code ≠ code) →
      public_track code db = .error (.http 404 "Tracking Number Not Found")) ∧
    (∀ s ∈ db.coll, s.tracking_code = code →
      (db.coll.map (fun x => x.tracking_code)).Nodup →
      public_track code db = .ok s) := by
  constructor
  · intro h
    have hnone : db.coll.find? (byCode code) = none := by
      rw [List.find?_eq_none]
      intro x hx
      simp [byCode, h x hx]
    unfold public_track
    rw [hnone]
  · intro s hmem hcode hnd
    unfold public_track
    rw [find?_eq_some_of_nodup_codes db.coll hnd hmem hcode]

/-- Evaluation of C4: a miss on a non-empty store and a hit returning the
stored record itself. -/
theorem C4_witness :
    public_track "missing" { coll := [sampleShipment], nextOid := 1 } =
      .error (.http 404 "Tracking Number Not Found") ∧
    public_track "CC-20240115-6800" { coll := [sampleShipment], nextOid := 1 } =
      .ok sampleShipment :=
  ⟨(C4_public_track_semantics "missing" { coll := [sampleShipment], nextOid := 1 }).1
      (by simp [sampleShipment]),
    (C4_public_track_semantics "CC-20240115-6800"
        { coll := [sampleShipment], nextOid := 1 }).2 sampleShipment
      (by simp) rfl (by simp)⟩

/-- **C3.** `create_shipment` on an accepted payload produces a shipment
with status "Order Received", a single-entry timeline stamped at the
current time and `last_update` set, persists it, and returns the new
identifier together with the generated tracking code; it rejects with a
validation error whenever `weight` is negative, `amount` is negative, or
the receiver email is not syntactically valid. -/
theorem C3_create_semantics (t : Time) (r : ShipmentCreate) (db : DB) :
    (validCreate r = true →
      create_shipment t r db =
        .ok ({ id := db.nextOid, tracking_code := generate_tracking_code t },
          { coll := db.coll ++ [seedShipment t r db.nextOid],
            nextOid := db.nextOid + 1 }) ∧
      (seedShipment t r db.nextOid).status = .orderReceived ∧
      (seedShipment t r db.nextOid).timeline =
        [{ status := .orderReceived, timestamp := t.epoch }] ∧
      (seedShipment t r db.nextOid).last_update = some t.epoch ∧
      (seedShipment t r db.nextOid).tracking_code = generate_tracking_code t) ∧
    ((r.weight < 0 ∨ r.amount < 0 ∨ isValidEmail r.receiver_email = false) →
      create_shipment t r db = .error .validation) := by
  constructor
  · intro hv
    exact ⟨create_shipment_ok hv, rfl, rfl, rfl, rfl⟩
  · intro h
    have hv : validCreate r = false := by
      unfold validCreate
      rcases h with h | h | h
      · rw [decide_eq_false (Int.not_le.mpr h)]
        simp
      · rw [decide_eq_false (Int.not_le.mpr h)]
        simp
      · rw [h]
        simp
    unfold create_shipment
    rw [if_neg (by simp [hv])]

/-- Evaluation of C3: a valid creation and a rejected `weight = -1`. -/
theorem C3_witness :
    (create_shipment sampleTime samplePayload { coll := [], nextOid := 0 } =
      .ok ({ id := 0, tracking_code := generate_tracking_code sampleTime },
        { coll := [seedShipment sampleTime samplePayload 0], nextOid := 1 }) ∧
      (seedShipment sampleTime samplePayload 0).status = .orderReceived ∧
      (seedShipment sampleTime samplePayload 0).timeline =
        [{ status := .orderReceived, timestamp := sampleTime.epoch }] ∧
      (seedShipment sampleTime samplePayload 0).last_update =
        some sampleTime.epoch ∧
      (seedShipment sampleTime samplePayload 0).tracking_code =
        generate_tracking_code sampleTime) ∧
    create_shipment sampleTime { samplePayload with weight := -1 }
        { coll := [], nextOid := 0 } = .error .validation :=
  ⟨(C3_create_semantics sampleTime samplePayload
      { coll := [], nextOid := 0 }).1 (by decide),
    (C3_create_semantics sampleTime { samplePayload with weight := -1 }
      { coll := [], nextOid := 0 }).2 (Or.inl (by decide))⟩

/-- **C7.** The admin listing returns at most 200 records, sorted by
`last_update` in descending order, for every state of the store. -/
theorem C7_list_bounded_and_sorted (db : DB) :
    (list_shipments db).length ≤ 200 ∧
      (list_shipments db).Sorted (fun a b => luKey b ≤ luKey a) := by
  constructor
  · rw [list_shipments, List.length_take]
    exact min_le_left _ _
  · have hsorted := @List.sorted_mergeSort Shipment
      (fun a b : Shipment => decide (luKey b ≤ luKey a))
      (fun a b c h1 h2 => by
        simp only [decide_eq_true_eq] at h1 h2 ⊢
        omega)
      (fun a b => by
        simp only [Bool.or_eq_true, decide_eq_true_eq]
        omega)
      db.coll
    have hp := List.Pairwise.sublist (List.take_sublist 200 _) hsorted
    rw [list_shipments]
    exact hp.imp (fun h => by simpa using h)

/-- **C9.** Failing logins are indistinguishable: an attempt with a wrong
identity and an attempt with the correct identity but a wrong secret
produce the identical `401 "Invalid credentials"` error, and no failing
attempt yields a token. -/
theorem C9_login_failures_indistinguishable (adminEmail adminPassword : String)
    (now : Nat) (u1 p1 p2 : String)
    (h1 : u1 ≠ adminEmail) (h2 : p2 ≠ adminPassword) :
    login adminEmail adminPassword now u1 p1 =
      .error (.http 401 "Invalid credentials") ∧
    login adminEmail adminPassword now adminEmail p2 =
      .error (.http 401 "Invalid credentials") ∧
    login adminEmail adminPassword now u1 p1 =
      login adminEmail adminPassword now adminEmail p2 ∧
    ∀ tok : AccessToken,
      login adminEmail adminPassword now u1 p1 ≠ .ok tok ∧
      login adminEmail adminPassword now adminEmail p2 ≠ .ok tok := by
  have e1 : login adminEmail adminPassword now u1 p1 =
      .error (.http 401 "Invalid credentials") := by
    simp [login, h1]
  have e2 : login adminEmail adminPassword now adminEmail p2 =
      .error (.http 401 "Invalid credentials") := by
    simp [login, verify_password, h2]
  exact ⟨e1, e2, e1.trans e2.symm,
    fun tok => ⟨by rw [e1]; exact fun hcon => Except.noConfusion hcon,
      by rw [e2]; exact fun hcon => Except.noConfusion hcon⟩⟩

/-- Evaluation of C9 with the shipped default credentials. -/
theorem C9_witness :
    login "admin@cargoconnect.com" "Admin@123" 1705276800
        "intruder@evil.example" "Admin@123" =
      .error (.http 401 "Invalid credentials") ∧
    login "admin@cargoconnect.com" "Admin@123" 1705276800
        "admin@cargoconnect.com" "letmein" =
      .error (.http 401 "Invalid credentials") ∧
    login "admin@cargoconnect.com" "Admin@123" 1705276800
        "intruder@evil.example" "Admin@123" =
      login "admin@cargoconnect.com" "Admin@123" 1705276800
        "admin@cargoconnect.com" "letmein" ∧
    ∀ tok : AccessToken,
      login "admin@cargoconnect.com" "Admin@123" 1705276800
          "intruder@evil.example" "Admin@123" ≠ .ok tok ∧
      login "admin@cargoconnect.com" "Admin@123" 1705276800
          "admin@cargoconnect.com" "letmein" ≠ .ok tok :=
  C9_login_failures_indistinguishable "admin@cargoconnect.com" "Admin@123"
    1705276800 "intruder@evil.example" "Admin@123" "letmein"
    (by decide) (by decide)

/-! ### Digit-string lemmas for the tracking-code format -/

theorem isDigit_ofNat_digit {d : Nat} (hd : d < 10) :
    (Char.ofNat (48 + d)).isDigit = true := by
  interval_cases d <;> decide

theorem natDigits_all_digit (n : Nat) : ∀ c ∈ natDigits n, c.isDigit = true := by
  induction n using Nat.strong_induction_on with
  | _ n ih =>
    intro c hc
    rw [natDigits] at hc
    split at hc
    · rename_i h
      rw [List.mem_singleton] at hc
      subst hc
      exact isDigit_ofNat_digit h
    · rename_i h
      rcases List.mem_append.mp hc with h' | h'
      · exact ih (n / 10) (Nat.div_lt_self (by omega) (by omega)) c h'
      · rw [List.mem_singleton] at h'
        subst h'
        exact isDigit_ofNat_digit (Nat.mod_lt _ (by omega))

theorem length_natDigits_pos (n : Nat) : 1 ≤ (natDigits n).length := by
  rw [natDigits]
  split
  · simp
  · simp

theorem length_natDigits_le (k : Nat) :
    ∀ n : Nat, 1 ≤ k → n < 10 ^ k → (natDigits n).length ≤ k := by
  induction k with
  | zero => intro n h _; omega
  | succ k ih =>
    intro n _ hn
    rw [natDigits]
    split
    · rw [List.length_singleton]
      omega
    · rename_i h
      rcases Nat.eq_zero_or_pos k with rfl | hk
      · exact absurd hn (by simpa using h)
      · rw [List.length_append, List.length_singleton]
        have hdiv : n / 10 < 10 ^ k := by
          rw [Nat.div_lt_iff_lt_mul (by omega)]
          calc n < 10 ^ (k + 1) := hn
            _ = 10 ^ k * 10 := by rw [pow_succ]
        have := ih (n / 10) hk hdiv
        omega

theorem length_natDigits_ge (k : Nat) :
    ∀ n : Nat, 10 ^ k ≤ n → k + 1 ≤ (natDigits n).length := by
  induction k with
  | zero => intro n _; exact length_natDigits_pos n
  | succ k ih =>
    intro n hn
    have h10 : ¬ n < 10 := by
      have h1 : (10 : Nat) ^ 1 ≤ 10 ^ (k + 1) :=
        Nat.pow_le_pow_right (by omega) (by omega)
      simp only [pow_one] at h1
      omega
    rw [natDigits, dif_neg h10, List.length_append, List.length_singleton]
    have hdiv : 10 ^ k ≤ n / 10 := by
      rw [Nat.le_div_iff_mul_le (by omega)]
      calc 10 ^ k * 10 = 10 ^ (k + 1) := (pow_succ 10 k).symm
        _ ≤ n := hn
    have := ih (n / 10) hdiv
    omega

theorem length_zpad {w : Nat} {cs : List Char} (h : cs.length ≤ w) :
    (zpad w cs).length = w := by
  rw [zpad, List.length_append, List.length_replicate]
  omega

theorem all_digit_zpad {w : Nat} {cs : List Char}
    (h : ∀ c ∈ cs, c.isDigit = true) :
    ∀ c ∈ zpad w cs, c.isDigit = true := by
  intro c hc
  rw [zpad] at hc
  rcases List.mem_append.mp hc with h' | h'
  · rw [List.eq_of_mem_replicate h']
    decide
  · exact h c h'

theorem length_lastChars {cs : List Char} (h : 4 ≤ cs.length) :
    (lastChars 4 cs).length = 4 := by
  rw [lastChars, List.length_drop]
  omega

theorem mem_of_mem_lastChars {cs : List Char} {k : Nat} {c : Char}
    (hc : c ∈ lastChars k cs) : c ∈ cs := by
  rw [lastChars] at hc
  exact List.drop_subset _ _ hc

/-- **C8.** On any real clock value (valid civil date, epoch of at least
four digits) the generated tracking code has the fixed format
`CC-<8-digit UTC date>-<4 digits>`, the suffix being the low-order digits
of the epoch time; and for every accepted payload and *every* state of
the data store, `create_shipment` returns exactly `generate_tracking_code
t` — the generator takes no store argument and never consults it. -/
theorem C8_tracking_code_format (t : Time) (hv : t.Valid)
    (he : 1000 ≤ t.epoch) :
    (∃ date8 sfx : String,
      generate_tracking_code t = "CC-" ++ date8 ++ "-" ++ sfx ∧
      date8.length = 8 ∧ (∀ c ∈ date8.data, c.isDigit = true) ∧
      sfx.length = 4 ∧ (∀ c ∈ sfx.data, c.isDigit = true) ∧
      sfx.data = lastChars 4 (natDigits t.epoch)) ∧
    (∀ payload db, validCreate payload = true →
      create_shipment t payload db =
        .ok ({ id := db.nextOid, tracking_code := generate_tracking_code t },
          { coll := db.coll ++ [seedShipment t payload db.nextOid],
            nextOid := db.nextOid + 1 })) := by
  obtain ⟨hy1, hy2, hm1, hm2, hd1, hd2⟩ := hv
  constructor
  · refine ⟨strftimeYmd t, String.mk (lastChars 4 (natDigits t.epoch)),
      rfl, ?_, ?_, ?_, ?_, rfl⟩
    · show (zpad 4 (natDigits t.year) ++ zpad 2 (natDigits t.month) ++
        zpad 2 (natDigits t.day)).length = 8
      rw [List.length_append, List.length_append,
        length_zpad (length_natDigits_le 4 t.year (by omega)
          (by rw [show (10 : Nat) ^ 4 = 10000 from by norm_num]; omega)),
        length_zpad (length_natDigits_le 2 t.month (by omega)
          (by rw [show (10 : Nat) ^ 2 = 100 from by norm_num]; omega)),
        length_zpad (length_natDigits_le 2 t.day (by omega)
          (by rw [show (10 : Nat) ^ 2 = 100 from by norm_num]; omega))]
    · intro c hc
      rcases List.mem_append.mp hc with hc' | hc'
      · rcases List.mem_append.mp hc' with hc'' | hc''
        · exact all_digit_zpad (natDigits_all_digit t.year) c hc''
        · exact all_digit_zpad (natDigits_all_digit t.month) c hc''
      · exact all_digit_zpad (natDigits_all_digit t.day) c hc'
    · show (lastChars 4 (natDigits t.epoch)).length = 4
      refine length_lastChars ?_
      have := length_natDigits_ge 3 t.epoch
        (by rw [show (10 : Nat) ^ 3 = 1000 from by norm_num]; omega)
      omega
    · intro c hc
      exact natDigits_all_digit t.epoch c (mem_of_mem_lastChars hc)
  · intro payload db hval
    exact create_shipment_ok hval

/-- Evaluation of C8 at the sample clock. -/
theorem C8_witness :
    (∃ date8 sfx : String,
      generate_tracking_code sampleTime = "CC-" ++ date8 ++ "-" ++ sfx ∧
      date8.length = 8 ∧ (∀ c ∈ date8.data, c.isDigit = true) ∧
      sfx.length = 4 ∧ (∀ c ∈ sfx.data, c.isDigit = true) ∧
      sfx.data = lastChars 4 (natDigits sampleTime.epoch)) ∧
    (∀ payload db, validCreate payload = true →
      create_shipment sampleTime payload db =
        .ok ({ id := db.nextOid,
               tracking_code := generate_tracking_code sampleTime },
          { coll := db.coll ++ [seedShipment sampleTime payload db.nextOid],
            nextOid := db.nextOid + 1 })) :=
  C8_tracking_code_format sampleTime
    ⟨by decide, by decide, by decide, by decide, by decide, by decide⟩
    (by decide)

/-! ### C5: proof-of-delivery upload -/

/-- **C5 counterexample.** On an empty store — so no shipment carries the
tracking code — `upload_proof` does not fail with NotFound (its result
type admits no failure at all: the handler performs no existence check):
it stores the file, returns the pseudo URL, and leaves the shipment
collection unchanged. -/
theorem C5_counterexample :
    (∀ x ∈ ({ coll := [], nextOid := 0 } : DB).coll,
      x.tracking_code ≠ "CC-20240115-6800") ∧
    (upload_proof "CC-20240115-6800" "pod.png" [1, 2, 3]
        { coll := [], nextOid := 0 } { files := [] }).1 =
      { url := "/logs/CC-20240115-6800-pod.png" } ∧
    (upload_proof "CC-20240115-6800" "pod.png" [1, 2, 3]
        { coll := [], nextOid := 0 } { files := [] }).2.1 =
      { coll := [], nextOid := 0 } := by
  refine ⟨by simp, ?_, rfl⟩
  show ({ url := "/" ++ ("logs/" ++ "CC-20240115-6800" ++ "-" ++ "pod.png") } :
    UploadResponse) = { url := "/logs/CC-20240115-6800-pod.png" }
  decide

/-- **C5 amended.** `upload_proof` never fails with NotFound: for every
store it stores the uploaded content keyed `logs/<code>-<filename>` and
returns the corresponding URL.  When a shipment carries the code, its
`proof_of_delivery_url` is set to that reference (which retrieves the
stored content); when none does, the shipment collection is left
untouched and the call still reports success. -/
theorem C5_upload_semantics (code filename : String) (content : FileContent)
    (db : DB) (blob : BlobStore) :
    (upload_proof code filename content db blob).1 =
      { url := "/" ++ ("logs/" ++ code ++ "-" ++ filename) } ∧
    ((upload_proof code filename content db blob).2.2).read
        ("logs/" ++ code ++ "-" ++ filename) = some content ∧
    (∀ s, db.coll.find? (byCode code) = some s →
      (upload_proof code filename content db blob).2.1.coll.find? (byCode code) =
        some { s with
          proof_of_delivery_url :=
            some ("/" ++ ("logs/" ++ code ++ "-" ++ filename)) }) ∧
    (db.coll.find? (byCode code) = none →
      (upload_proof code filename content db blob).2.1 = db) := by
  refine ⟨rfl, ?_, ?_, ?_⟩
  · show (BlobStore.read
      { files := ("logs/" ++ code ++ "-" ++ filename, content) :: blob.files }
      ("logs/" ++ code ++ "-" ++ filename)) = some content
    rw [BlobStore.read, List.find?_cons_of_pos _ (by simp)]
    rfl
  · intro s hfind
    show (updateFirst (byCode code)
        (fun d => { d with
          proof_of_delivery_url :=
            some ("/" ++ ("logs/" ++ code ++ "-" ++ filename)) }) db.coll).find?
        (byCode code) = _
    rw [find?_updateFirst_same (fun x hx => by simpa [byCode] using hx) db.coll,
      hfind]
    rfl
  · intro hnone
    have h := @updateFirst_of_find?_eq_none (byCode code)
      (fun d => { d with
        proof_of_delivery_url :=
          some ("/" ++ ("logs/" ++ code ++ "-" ++ filename)) })
      db.coll hnone
    show ({ coll := _, nextOid := db.nextOid } : DB) = db
    rw [h]

/-- Evaluation of C5: a hit updating the stored record and a miss leaving
the store unchanged. -/
theorem C5_witness :
    (upload_proof "CC-20240115-6800" "pod.png" [7]
        { coll := [sampleShipment], nextOid := 1 }
        { files := [] }).2.1.coll.find? (byCode "CC-20240115-6800") =
      some { sampleShipment with
        proof_of_delivery_url :=
          some ("/" ++ ("logs/" ++ "CC-20240115-6800" ++ "-" ++ "pod.png")) } ∧
    (upload_proof "missing" "pod.png" [7] { coll := [], nextOid := 0 }
        { files := [] }).2.1 = { coll := [], nextOid := 0 } :=
  ⟨(C5_upload_semantics "CC-20240115-6800" "pod.png" [7]
        { coll := [sampleShipment], nextOid := 1 } { files := [] }).2.2.1
      sampleShipment rfl,
    (C5_upload_semantics "missing" "pod.png" [7] { coll := [], nextOid := 0 }
        { files := [] }).2.2.2 rfl⟩

/-! ### C6: best-effort email notification -/

def sampleSmtpConfig : SmtpConfig :=
  { host := some "smtp.example.com"
    port := 587
    user := some "mailer@example.com"
    password := some "hunter2" }

/-- **C6 counterexample.** With the transport configured and the SMTP
session failing, the notify request surfaces an error to its caller
instead of completing with `sent = false`: `send_email` does not catch
transport exceptions. -/
theorem C6_counterexample :
    notify_receiver "CC-20240115-6800" sampleSmtpConfig .failed
        { coll := [sampleShipment], nextOid := 1 } = .error .transport ∧
    ∀ b : Bool, notify_receiver "CC-20240115-6800" sampleSmtpConfig .failed
        { coll := [sampleShipment], nextOid := 1 } ≠ .ok { sent := b } := by
  have h : notify_receiver "CC-20240115-6800" sampleSmtpConfig .failed
      { coll := [sampleShipment], nextOid := 1 } = .error .transport := rfl
  exact ⟨h, fun b hcon => by rw [h] at hcon; cases hcon⟩

/-- **C6 amended.** When host or credentials are unset `send_email`
short-circuits to a sent-false result without consulting the transport
(the result is the same for every transport outcome); but when the
transport is configured and delivery fails, the failure is *not* reported
as `sent = false` — the exception escapes `send_email` and the triggering
request fails with an error. -/
theorem C6_send_email_semantics (cfg : SmtpConfig)
    (to_email subject body : String) :
    ((pyTruthy cfg.host && pyTruthy cfg.user && pyTruthy cfg.password) = false →
      ∀ outcome : SmtpOutcome,
        send_email cfg outcome to_email subject body = .ok false) ∧
    ((pyTruthy cfg.host && pyTruthy cfg.user && pyTruthy cfg.password) = true →
      send_email cfg .failed to_email subject body = .error .sendFailure ∧
      ∀ code db s, db.coll.find? (byCode code) = some s →
        notify_receiver code cfg .failed db = .error .transport) := by
  have hgen : ∀ (a b c : String),
      (pyTruthy cfg.host && pyTruthy cfg.user && pyTruthy cfg.password) = true →
      send_email cfg .failed a b c = .error .sendFailure := by
    intro a b c h
    unfold send_email
    rw [if_neg (by simp [h])]
  constructor
  · intro h outcome
    unfold send_email
    rw [if_pos (by simp [h])]
  · intro h
    refine ⟨hgen to_email subject body h, ?_⟩
    intro code db s hfind
    unfold notify_receiver
    rw [hfind]
    dsimp only
    rw [hgen _ _ _ h]

/-- Evaluation of C6: an unconfigured transport reports not-sent for both
transport outcomes; a configured transport with a failing session errors. -/
theorem C6_witness :
    send_email { host := none, port := 587, user := none, password := none }
        .delivered "ben@example.com" "subj" "body" = .ok false ∧
    send_email { host := none, port := 587, user := none, password := none }
        .failed "ben@example.com" "subj" "body" = .ok false ∧
    send_email sampleSmtpConfig .failed "ben@example.com" "subj" "body" =
      .error .sendFailure :=
  ⟨(C6_send_email_semantics
        { host := none, port := 587, user := none, password := none }
        "ben@example.com" "subj" "body").1 (by decide) .delivered,
    (C6_send_email_semantics
        { host := none, port := 587, user := none, password := none }
        "ben@example.com" "subj" "body").1 (by decide) .failed,
    ((C6_send_email_semantics sampleSmtpConfig
        "ben@example.com" "subj" "body").2 (by decide)).1⟩

end CargoConnect
